import Mathlib

/-
Verification of `cli_audit.py` — a CLI "citizenship" checker.

The Python source is shallowly embedded below.  Pure text analyses
(`has_ansi`, `looks_like_help`, `find_flag_mentions`, …) become Lean
functions on `String`/`List Char`.  The subprocess layer (`runCmd`) is
embedded by making the outcome of the spawned child an explicit
`ProcOutcome` value; `runCmd` then maps that outcome to the `RunResult`
record exactly as the Python `try/except` does.  The probe suite in
`main` becomes a function from the five probe outcomes to the ordered
list of findings and the final exit code.

Modelling notes:
- machine strings are Lean `String` (Python byte decoding with
  `errors="replace"` is outside the claims; captured output is modelled
  as already-decoded text);
- Python's `\s` class and `str.strip()`/`str.lower()` are modelled on
  the ASCII range (the characters `" \t\n\r\x0b\x0c"` and `A`–`Z`),
  which is faithful for all ASCII text.
-/

namespace CliAudit

/-! ## Basic character and string helpers -/

def escChar : Char := '\x1b'

def belChar : Char := '\x07'

/-- Python's `\s` / `str.isspace`, restricted to the ASCII range. -/
def pySpace (c : Char) : Bool :=
  c == ' ' || c == '\t' || c == '\n' || c == '\r' || c == '\x0b' || c == '\x0c'

/-- `str.strip()` on the underlying character list. -/
def pyStripList (l : List Char) : List Char :=
  ((l.dropWhile pySpace).reverse.dropWhile pySpace).reverse

/-- Python `s.strip()`. -/
def pyStrip (s : String) : String :=
  ⟨pyStripList s.data⟩

/-- Python truthiness of a string: non-empty. -/
def pyTruthy (s : String) : Bool :=
  !(s.data.isEmpty)

/-- Python `a or b` on strings: `a` if non-empty, else `b`. -/
def pyOr (a b : String) : String :=
  if pyTruthy a then a else b

/-- Does `hay` start with `needle`? -/
def listStartsWith : List Char → List Char → Bool
  | [], _ => true
  | _ :: _, [] => false
  | a :: as, b :: bs => a == b && listStartsWith as bs

def listHasInfix (needle : List Char) : List Char → Bool
  | [] => needle.isEmpty
  | c :: cs => listStartsWith needle (c :: cs) || listHasInfix needle cs

/-- Python `needle in hay` for strings. -/
def strContains (hay needle : String) : Bool :=
  listHasInfix needle.data hay.data

/-- ASCII lowercasing of one character (model of `str.lower()`). -/
def asciiLower (c : Char) : Char :=
  if 0x41 ≤ c.toNat && c.toNat ≤ 0x5A then Char.ofNat (c.toNat + 32) else c

/-- Python `s.lower()` (ASCII model). -/
def pyLower (s : String) : String :=
  ⟨s.data.map asciiLower⟩

/-! ## `ANSI_RE` — the escape-sequence regex

The Python pattern is ESC followed by one of three alternatives: a CSI
sequence (`[` then parameter bytes 0x30–0x3F, then intermediate bytes
0x20–0x2F, then a final byte 0x40–0x7E), an OSC sequence (`]` then lazily
any bytes, DOTALL, up to BEL or the pair ESC backslash), or a
two-character sequence (one byte in 0x40–0x5A or 0x5C–0x5F).  The three
alternatives use pairwise-disjoint character classes after the
introducer, so a backtracking-free scanner decides whether a match
exists.  `has_ansi` is Python's `bool(ANSI_RE.search(s))`: a match exists
starting at some position of `s`. -/

def csiParamChar (c : Char) : Bool := 0x30 ≤ c.toNat && c.toNat ≤ 0x3F

def csiInterChar (c : Char) : Bool := 0x20 ≤ c.toNat && c.toNat ≤ 0x2F

def csiFinalChar (c : Char) : Bool := 0x40 ≤ c.toNat && c.toNat ≤ 0x7E

/-- The class `[@-Z\\-_]` of the two-character-sequence alternative. -/
def twoCharFinal (c : Char) : Bool :=
  (0x40 ≤ c.toNat && c.toNat ≤ 0x5A) || (0x5C ≤ c.toNat && c.toNat ≤ 0x5F)

/-- Intermediate bytes (0x20–0x2F) then a final byte (0x40–0x7E) after
the parameter bytes of a CSI sequence. -/
def csiInterPart : List Char → Bool
  | [] => false
  | c :: cs => if csiFinalChar c then true
               else if csiInterChar c then csiInterPart cs
               else false

/-- The tail of a CSI sequence after `ESC [`: parameter bytes, then
intermediate bytes, then one final byte. -/
def csiTail : List Char → Bool
  | [] => false
  | c :: cs => if csiParamChar c then csiTail cs else csiInterPart (c :: cs)

/-- `.*?(?:\x07|\x1b\\)` (DOTALL) — the tail of an OSC sequence after
`ESC ]`: some later position carries BEL or the pair `ESC \`. -/
def oscTail : List Char → Bool
  | [] => false
  | c :: cs => c == belChar || (c == escChar && cs.head? == some '\\') || oscTail cs

/-- Does the regex body (after the leading `ESC`) match here? -/
def ansiBodyAt : List Char → Bool
  | [] => false
  | c :: cs =>
    if c == '[' then csiTail cs
    else if c == ']' then (oscTail cs || twoCharFinal c)
    else twoCharFinal c

/-- `ANSI_RE.search`: a match starting at some position. -/
def ansiSearch : List Char → Bool
  | [] => false
  | c :: cs => (c == escChar && ansiBodyAt cs) || ansiSearch cs

/-- `has_ansi(s)`. -/
def has_ansi (s : String) : Bool :=
  ansiSearch s.data

def carriageReturnTok : String := "\r"

/-- `has_carriage_returns(s)`: `"\r" in s`. -/
def has_carriage_returns (s : String) : Bool :=
  strContains s carriageReturnTok

/-! ## `looks_like_help` and `find_flag_mentions` -/

def helpKeywords : List String :=
  ["usage:", "\nusage", "synopsis", "options", "commands"]

/-- `looks_like_help(text)`. -/
def looks_like_help (text : String) : Bool :=
  let t := pyLower text
  helpKeywords.any (fun k => strContains t k)

/-- One position of `re.search(r"(^|\s)-X(\s|,|$)", t)`: does the short
flag `-c` occur at index `i` of `t` with the required boundaries?
(`$` without MULTILINE also matches just before a trailing newline,
which is subsumed by the `\s` alternative consuming that newline.) -/
def prevOk (t : List Char) (i : Nat) : Bool :=
  i == 0 ||
    (match t.get? (i - 1) with
     | some p => pySpace p
     | none => false)

def nextOk (t : List Char) (i : Nat) : Bool :=
  match t.get? (i + 2) with
  | none => true
  | some n => pySpace n || n == ','

def shortFlagMatchAt (t : List Char) (c : Char) (i : Nat) : Bool :=
  (t.get? i == some '-') && (t.get? (i + 1) == some c) && prevOk t i && nextOk t i

/-- `re.search(r"(^|\s)-c(\s|,|$)", s) is not None`. -/
def shortFlagMention (s : String) (c : Char) : Bool :=
  (List.range s.data.length).any (fun i => shortFlagMatchAt s.data c i)

def kwHelp : String := "--help"
def kwShortH : String := "-h"
def kwVersion : String := "--version"
def kwJson : String := "--json"
def kwPlain : String := "--plain"
def kwNoColor : String := "--no-color"
def kwNoColorEnv : String := "NO_COLOR"
def kwNoInput : String := "--no-input"
def kwDryRun : String := "--dry-run"
def kwForce : String := "--force"
def kwQuiet : String := "--quiet"
def kwVerbose : String := "--verbose"
def kwDebug : String := "--debug"

/-- `find_flag_mentions(help_text)`, as the lookup function of the
returned dict (`.get` of a missing key is falsy, hence `false`). -/
def find_flag_mentions (help_text : String) : String → Bool := fun key =>
  if key == kwHelp then strContains help_text kwHelp
  else if key == kwShortH then shortFlagMention help_text 'h'
  else if key == kwVersion then strContains help_text kwVersion
  else if key == kwJson then strContains help_text kwJson
  else if key == kwPlain then strContains help_text kwPlain
  else if key == kwNoColor then strContains help_text kwNoColor
  else if key == kwNoColorEnv then strContains help_text kwNoColorEnv
  else if key == kwNoInput then strContains help_text kwNoInput
  else if key == kwDryRun then strContains help_text kwDryRun
  else if key == kwForce then strContains help_text kwForce
  else if key == kwQuiet then strContains help_text kwQuiet || shortFlagMention help_text 'q'
  else if key == kwVerbose then strContains help_text kwVerbose || shortFlagMention help_text 'v'
  else if key == kwDebug then strContains help_text kwDebug || shortFlagMention help_text 'd'
  else false

/-! ## Process model and `runCmd` -/

/-- The observable behaviour of one child-process invocation, i.e. which
of the three `try/except` paths of `runCmd` the call takes and what the
child produced on that path.  `timedOut` carries the partial output of
`subprocess.TimeoutExpired` (`e.stdout` / `e.stderr`, possibly `None`). -/
inductive ProcOutcome where
  | completed (returncode : Int) (stdout stderr : String)
  | notFound
  | timedOut (stdout stderr : Option String)
deriving DecidableEq, Repr

structure RunResult where
  argv : List String
  returncode : Option Int
  stdout : String
  stderr : String
  timed_out : Bool
deriving DecidableEq, Repr

/-- `e.stdout or b""` followed by decoding. -/
def orEmpty : Option String → String
  | some s => s
  | none => ""

def notFoundMsg : String := "Command not found."

/-- `runCmd` (lines 69–109): build the `RunResult` from the outcome of
the spawned child. -/
def runCmd (argv : List String) (o : ProcOutcome) : RunResult :=
  match o with
  | .completed rc out err => ⟨argv, some rc, out, err, false⟩
  | .notFound => ⟨argv, none, "", notFoundMsg, false⟩
  | .timedOut so se => ⟨argv, none, orEmpty so, orEmpty se, true⟩

/-- Lines 74–76: `env = os.environ.copy(); env.update(env_overrides)`.
The environment the child receives, as a lookup function: an override
wins, any other key keeps its ambient value. -/
def childEnv (ambient : List (String × String))
    (env_overrides : Option (List (String × String))) : String → Option String :=
  fun k =>
    match env_overrides with
    | none => ambient.lookup k
    | some ov =>
      match ov.lookup k with
      | some v => some v
      | none => ambient.lookup k

/-- `runCmd` with its environment handling made observable: the result,
the environment handed to the child, and the ambient environment of the
auditing process after the call (the code updates only the copy, so the
ambient environment is returned unchanged). -/
structure RunCall where
  result : RunResult
  child_env : String → Option String
  ambient_after : List (String × String)

def runCmdEnv (argv : List String) (ambient : List (String × String))
    (env_overrides : Option (List (String × String))) (o : ProcOutcome) : RunCall :=
  ⟨runCmd argv o, childEnv ambient env_overrides, ambient⟩

/-! ## Findings -/

structure Finding where
  level : String
  title : String
  details : String
deriving DecidableEq, Repr

def levelPASS : String := "PASS"
def levelWARN : String := "WARN"
def levelFAIL : String := "FAIL"

def failHelpTimeout : Finding :=
  ⟨levelFAIL, "--help timed out", "Help should return quickly."⟩

def failHelpExec (r : RunResult) : Finding :=
  ⟨levelFAIL, "--help failed to execute", pyOr (pyStrip r.stderr) "Unknown error."⟩

def failHelpExit (rc : Int) : Finding :=
  ⟨levelFAIL, "--help exit code was " ++ toString rc, "Help should exit 0."⟩

def passHelpExit : Finding :=
  ⟨levelPASS, "--help exits with code 0", ""⟩

def failHelpNoOutput : Finding :=
  ⟨levelFAIL, "--help produced no output", ""⟩

def passLooksHelp : Finding :=
  ⟨levelPASS, "--help output looks like help (usage/options/commands detected)", ""⟩

def warnNotHelp : Finding :=
  ⟨levelWARN, "--help output did not obviously look like help", "Check formatting and content."⟩

def passHelpStdout : Finding :=
  ⟨levelPASS, "Help printed to stdout", ""⟩

def warnHelpStderr : Finding :=
  ⟨levelWARN, "Help printed to stderr",
    "Common convention is help on stdout; stderr is typically for errors."⟩

def warnHelpBoth : Finding :=
  ⟨levelWARN, "Help printed to both stdout and stderr",
    "Prefer help on stdout; reserve stderr for errors/warnings."⟩

def warnHTimeout : Finding :=
  ⟨levelWARN, "-h timed out", "If you support -h, it should return quickly."⟩

def passHWorks : Finding :=
  ⟨levelPASS, "-h works (exit 0)", ""⟩

def warnHOdd : Finding :=
  ⟨levelWARN, "-h did not behave like help",
    "If you intentionally use -h for something else, consider avoiding that."⟩

def failBadTimeout : Finding :=
  ⟨levelFAIL, "Invalid-flag probe timed out", "Invalid input should fail fast with guidance."⟩

def failBadExec (r : RunResult) : Finding :=
  ⟨levelFAIL, "Invalid-flag probe failed to execute", pyOr (pyStrip r.stderr) "Unknown error."⟩

def failUnknownFlag : Finding :=
  ⟨levelFAIL, "Unknown flag returned exit code 0", "Unknown flags should be an error."⟩

def passUnknownNonZero (rc : Int) : Finding :=
  ⟨levelPASS, "Unknown flag returns non-zero (" ++ toString rc ++ ")", ""⟩

def passErrStderr : Finding :=
  ⟨levelPASS, "Unknown-flag error printed to stderr", ""⟩

def warnErrStderr : Finding :=
  ⟨levelWARN, "Unknown-flag error not printed to stderr", "Prefer errors on stderr."⟩

def passMentionsHelp : Finding :=
  ⟨levelPASS, "Unknown-flag error mentions --help", ""⟩

def warnMentionsHelp : Finding :=
  ⟨levelWARN, "Unknown-flag error does not mention --help",
    "Consider adding a hint to discover help."⟩

def warnNoisy : Finding :=
  ⟨levelWARN, "Error output includes a stack trace marker",
    "Prefer stack traces only in --debug/--verbose mode."⟩

def passVersion : Finding := ⟨levelPASS, "Help mentions --version", ""⟩

def warnVersion : Finding :=
  ⟨levelWARN, "Help does not mention --version",
    "Consider supporting --version for discoverability."⟩

def passJson : Finding := ⟨levelPASS, "Help mentions --json", ""⟩

def warnJson : Finding :=
  ⟨levelWARN, "Help does not mention --json",
    "If scripts may consume output, consider a structured JSON mode."⟩

def passPlain : Finding := ⟨levelPASS, "Help mentions --plain", ""⟩

def warnPlain : Finding :=
  ⟨levelWARN, "Help does not mention --plain",
    "If human output is formatted, a stable plain mode helps scripting."⟩

def passColorCtl : Finding :=
  ⟨levelPASS, "Help mentions color controls (--no-color and/or NO_COLOR)", ""⟩

def warnColorCtl : Finding :=
  ⟨levelWARN, "Help does not mention color controls",
    "Consider supporting --no-color and NO_COLOR."⟩

def passNoInput : Finding := ⟨levelPASS, "Help mentions --no-input", ""⟩

def warnNoInput : Finding :=
  ⟨levelWARN, "Help does not mention --no-input",
    "If you prompt, consider a non-interactive escape hatch."⟩

def warnAnsiHelp : Finding :=
  ⟨levelWARN, "ANSI escape sequences detected in --help output (captured/non-TTY)",
    "Consider disabling color/formatting when output is not a TTY, or when NO_COLOR is set."⟩

def passNoAnsiHelp : Finding :=
  ⟨levelPASS, "No ANSI escape sequences detected in captured --help output", ""⟩

def warnCrHelp : Finding :=
  ⟨levelWARN, "Carriage returns detected in --help output",
    "This can indicate animations/progress behavior; ensure you don't animate when not a TTY."⟩

def warnNoColorAnsi : Finding :=
  ⟨levelWARN, "ANSI still present with NO_COLOR=1",
    "Consider honoring NO_COLOR to disable color output."⟩

def passNoColorClean : Finding :=
  ⟨levelPASS, "NO_COLOR=1 produced no ANSI sequences (best-effort check)", ""⟩

def warnDumbAnsi : Finding :=
  ⟨levelWARN, "ANSI still present with TERM=dumb", "Consider disabling ANSI when TERM=dumb."⟩

def passDumbClean : Finding :=
  ⟨levelPASS, "TERM=dumb produced no ANSI sequences (best-effort check)", ""⟩

/-! ## The probe suite (`main`, lines 205–494)

The five child invocations are the only interaction with the outside
world; a `TargetBehavior` records their outcomes, in probe order. -/

structure TargetBehavior where
  help : ProcOutcome
  hshort : ProcOutcome
  bad : ProcOutcome
  no_color : ProcOutcome
  dumb_term : ProcOutcome
deriving DecidableEq, Repr

def helpFlagTok : String := "--help"

def shortHFlagTok : String := "-h"

def badFlagTok : String := "--definitely-not-a-real-flag-xyz"

/-- Lines 253–270: on which channel did `--help` print? -/
def channelFindings (r : RunResult) : List Finding :=
  if pyTruthy (pyStrip r.stdout) && !(pyTruthy (pyStrip r.stderr)) then [passHelpStdout]
  else if pyTruthy (pyStrip r.stderr) && !(pyTruthy (pyStrip r.stdout)) then [warnHelpStderr]
  else [warnHelpBoth]

/-- Lines 233–251: is the combined `--help` output non-empty and
help-like? -/
def helpOutputFindings (r : RunResult) : List Finding :=
  let combined := pyStrip (r.stdout ++ "\n" ++ r.stderr)
  if !(pyTruthy combined) then [failHelpNoOutput]
  else if looks_like_help combined then [passLooksHelp]
  else [warnNotHelp]

/-- Lines 209–270: the `--help` probe. -/
def helpProbeFindings (r : RunResult) : List Finding :=
  if r.timed_out then [failHelpTimeout]
  else
    match r.returncode with
    | none => [failHelpExec r]
    | some rc =>
      (if rc != 0 then [failHelpExit rc] else [passHelpExit])
        ++ helpOutputFindings r
        ++ channelFindings r

/-- Lines 281–297: the `-h` probe. -/
def hProbeFindings (r : RunResult) : List Finding :=
  if r.timed_out then [warnHTimeout]
  else if r.returncode == some 0 && (pyTruthy (pyStrip r.stdout) || pyTruthy (pyStrip r.stderr))
    then [passHWorks]
  else [warnHOdd]

def noisyMarkers : List String :=
  ["Traceback (most recent call last)", "panic:", "stack trace", "Stack trace"]

/-- Lines 299–367: the invalid-flag probe. -/
def badProbeFindings (r : RunResult) : List Finding :=
  if r.timed_out then [failBadTimeout]
  else
    match r.returncode with
    | none => [failBadExec r]
    | some rc =>
      (if rc == 0 then [failUnknownFlag] else [passUnknownNonZero rc])
        ++ (if pyTruthy (pyStrip r.stderr) then [passErrStderr] else [warnErrStderr])
        ++ (if strContains (r.stdout ++ r.stderr) kwHelp then [passMentionsHelp]
            else [warnMentionsHelp])
        ++ (if noisyMarkers.any (fun m => strContains (r.stdout ++ r.stderr) m) then [warnNoisy]
            else [])

/-- Lines 377–436: convention checks on the retained help text. -/
def conventionFindings (help_text : String) : List Finding :=
  let fm := find_flag_mentions help_text
  (if fm kwVersion then [passVersion] else [warnVersion])
    ++ (if fm kwJson then [passJson] else [warnJson])
    ++ (if fm kwPlain then [passPlain] else [warnPlain])
    ++ (if fm kwNoColor || fm kwNoColorEnv then [passColorCtl] else [warnColorCtl])
    ++ (if fm kwNoInput then [passNoInput] else [warnNoInput])

/-- Lines 438–461: ANSI and carriage-return checks on the captured
`--help` result. -/
def ansiFindings (r : RunResult) : List Finding :=
  (if has_ansi r.stdout || has_ansi r.stderr then [warnAnsiHelp] else [passNoAnsiHelp])
    ++ (if has_carriage_returns r.stdout || has_carriage_returns r.stderr then [warnCrHelp]
        else [])

/-- Lines 464–478: the `NO_COLOR=1` probe. -/
def noColorFindings (r : RunResult) : List Finding :=
  if has_ansi r.stdout || has_ansi r.stderr then [warnNoColorAnsi] else [passNoColorClean]

/-- Lines 480–494: the `TERM=dumb` probe. -/
def dumbTermFindings (r : RunResult) : List Finding :=
  if has_ansi r.stdout || has_ansi r.stderr then [warnDumbAnsi] else [passDumbClean]

/-- The retained `help_res` of the `--help` probe. -/
def helpRes (cmd : List String) (tb : TargetBehavior) : RunResult :=
  runCmd (cmd ++ [helpFlagTok]) tb.help

/-- Line 378: `help_text = help_res.stdout + "\n" + help_res.stderr`. -/
def helpText (cmd : List String) (tb : TargetBehavior) : String :=
  (helpRes cmd tb).stdout ++ "\n" ++ (helpRes cmd tb).stderr

/-- Lines 205–494: all findings, in emission order. -/
def probeFindings (cmd : List String) (tb : TargetBehavior) : List Finding :=
  helpProbeFindings (helpRes cmd tb)
    ++ hProbeFindings (runCmd (cmd ++ [shortHFlagTok]) tb.hshort)
    ++ badProbeFindings (runCmd (cmd ++ [badFlagTok]) tb.bad)
    ++ conventionFindings (helpText cmd tb)
    ++ ansiFindings (helpRes cmd tb)
    ++ noColorFindings (runCmd (cmd ++ [helpFlagTok]) tb.no_color)
    ++ dumbTermFindings (runCmd (cmd ++ [helpFlagTok]) tb.dumb_term)

/-! ## Aggregation and exit code (`main`, lines 185–203 and 496–507) -/

def failCount (findings : List Finding) : Nat :=
  findings.countP (fun f => f.level == levelFAIL)

def warnCount (findings : List Finding) : Nat :=
  findings.countP (fun f => f.level == levelWARN)

/-- Lines 503–507. -/
def exitCode (findings : List Finding) (strict : Bool) : Int :=
  if 0 < failCount findings then 1
  else if strict = true ∧ 0 < warnCount findings then 1
  else 0

def sepTok : String := "--"

/-- Lines 192–198: drop a leading `--` separator. -/
def stripSep (cmd : List String) : List String :=
  match cmd with
  | c :: rest => if c = sepTok then rest else c :: rest
  | [] => []

/-- `main` (lines 160–507): the pre-flight checks, the probe suite, and
the final exit code.  `exe_found` is the result of the external
`shutil.which(exe) is None and not os.path.exists(exe)` lookup; the
returned findings are those the run emitted (empty when the run
short-circuits before any probe). -/
def mainRun (args_cmd : List String) (exe_found : Bool) (strict : Bool)
    (tb : TargetBehavior) : Int × List Finding :=
  if args_cmd.isEmpty then (2, [])
  else
    let cmd := stripSep args_cmd
    if cmd.isEmpty then (2, [])
    else if exe_found = false then (127, [])
    else
      let findings := probeFindings cmd tb
      (exitCode findings strict, findings)

/-! ## Specification-level predicates and example inputs -/

/-- Outcome class: normal exit (exit code present, no timeout). -/
def normalExit (r : RunResult) : Prop :=
  r.returncode ≠ none ∧ r.timed_out = false

/-- Outcome class: timed out (exit code absent, timeout flag set). -/
def timedOutExit (r : RunResult) : Prop :=
  r.returncode = none ∧ r.timed_out = true

/-- Outcome class: failed to start (exit code absent, no timeout, and
the synthetic diagnostic on stderr). -/
def failedStart (r : RunResult) : Prop :=
  r.returncode = none ∧ r.timed_out = false ∧ r.stderr = notFoundMsg

/-- The word-boundary condition of the short-flag regex, as a predicate:
`-c` occurs at some index `i` of the text, preceded by start-of-string
or a whitespace character, and followed by a whitespace character, a
comma, or end-of-string. -/
def ShortBoundary (t : List Char) (c : Char) : Prop :=
  ∃ i, t.get? i = some '-' ∧ t.get? (i + 1) = some c ∧
    (i = 0 ∨ ∃ p, t.get? (i - 1) = some p ∧ pySpace p = true) ∧
    (t.get? (i + 2) = none ∨ ∃ n, t.get? (i + 2) = some n ∧ (pySpace n = true ∨ n = ','))

def csiLiteral : String := "\x1b[31m"

def oscLiteral : String := "\x1b]0;title\x07"

def plainLiteral : String := "plain text with no escape byte."

def usageExample : String := "Usage: foo [OPTIONS]"

def randomExample : String := "random text"

def verboseExample : String := "run -v now"

def versionExample : String := "run -version"

def ansiRedLiteral : String := "\x1b[31m"

def demoCmd : List String := ["tool"]

/-- A target that answers help normally but hangs on the `NO_COLOR=1`
probe, with an ANSI fragment in the partially captured stdout. -/
def demoTimeoutTb : TargetBehavior :=
  ⟨ProcOutcome.completed 0 "Usage: tool" "", ProcOutcome.completed 0 "usage" "",
   ProcOutcome.completed 2 "" "bad flag", ProcOutcome.timedOut (some ansiRedLiteral) none,
   ProcOutcome.completed 0 "" ""⟩

def notFoundHelpText : String := "\nCommand not found."

/-! ## Helper lemmas -/

theorem pyTruthy_eq_false_iff (s : String) : pyTruthy s = false ↔ s = "" := by
  cases s with
  | mk l => cases l <;> simp [pyTruthy, String.ext_iff]

theorem mem_ite_singleton {P : Prop} [Decidable P] {x y z : Finding} :
    (x ∈ if P then [y] else [z]) ↔ ((P ∧ x = y) ∨ (¬ P ∧ x = z)) := by
  split <;> simp_all

theorem mem_ite_nil {P : Prop} [Decidable P] {x y : Finding} :
    (x ∈ if P then [y] else []) ↔ (P ∧ x = y) := by
  split <;> simp_all

theorem ansiSearch_no_esc (l : List Char) (h : ∀ c ∈ l, c ≠ escChar) :
    ansiSearch l = false := by
  induction l with
  | nil => rfl
  | cons c cs ih =>
    have hc : (c == escChar) = false :=
      beq_eq_false_iff_ne.mpr (h c (List.mem_cons_self c cs))
    simp only [ansiSearch, hc, Bool.false_and, Bool.false_or]
    exact ih fun d hd => h d (List.mem_cons_of_mem c hd)

/-! ## Claims -/

/-- Claim C2: every `RunResult` returned by `runCmd` satisfies exactly
one of the three outcomes — normal exit (exit code present, not timed
out), timed out (exit code absent, timeout flag set, partial output),
or failed to start (exit code absent, not timed out, synthetic stderr
diagnostic); in particular an exit code is never present together with
the timeout flag. -/
theorem runCmd_outcome_trichotomy (argv : List String) (o : ProcOutcome) :
    ((normalExit (runCmd argv o) ∧ ¬ timedOutExit (runCmd argv o) ∧ ¬ failedStart (runCmd argv o))
      ∨ (¬ normalExit (runCmd argv o) ∧ timedOutExit (runCmd argv o) ∧ ¬ failedStart (runCmd argv o))
      ∨ (¬ normalExit (runCmd argv o) ∧ ¬ timedOutExit (runCmd argv o) ∧ failedStart (runCmd argv o)))
    ∧ ((runCmd argv o).returncode.isSome && (runCmd argv o).timed_out) = false := by
  cases o <;> simp [runCmd, normalExit, timedOutExit, failedStart, notFoundMsg]

/-- Claim C3: `has_ansi` is false on every string with no ESC (0x1B)
character, and true on the literal CSI sequence `ESC [ 3 1 m` and on the
literal OSC sequence `ESC ] 0 ; title BEL`. -/
theorem has_ansi_spec :
    (∀ s : String, (∀ c ∈ s.data, c ≠ escChar) → has_ansi s = false)
    ∧ has_ansi csiLiteral = true ∧ has_ansi oscLiteral = true :=
  ⟨fun s h => ansiSearch_no_esc s.data h, by decide, by decide⟩

/-- Witness for C3: a concrete ESC-free string evaluates to false. -/
theorem has_ansi_spec_witness : has_ansi plainLiteral = false :=
  has_ansi_spec.1 plainLiteral (by decide)

/-- Claim C7: `looks_like_help` is true exactly when the lower-cased
input contains one of the five literal keyword substrings, and in
particular is true on `"Usage: foo [OPTIONS]"` and false on
`"random text"`. -/
theorem looks_like_help_spec :
    (∀ t : String, looks_like_help t = true ↔
      (strContains (pyLower t) "usage:" = true ∨ strContains (pyLower t) "\nusage" = true
        ∨ strContains (pyLower t) "synopsis" = true ∨ strContains (pyLower t) "options" = true
        ∨ strContains (pyLower t) "commands" = true))
    ∧ looks_like_help usageExample = true ∧ looks_like_help randomExample = false := by
  refine ⟨fun t => ?_, by decide, by decide⟩
  simp [looks_like_help, helpKeywords]

/-- Claim C8: the child environment is the ambient environment with the
overrides applied on top — an overridden key takes the override value,
every other key keeps its ambient value, no key is removed — and the
ambient environment of the auditing process is returned unchanged by
the call. -/
theorem childEnv_spec (ambient ov : List (String × String)) (k : String) :
    (childEnv ambient (some ov) k =
      match ov.lookup k with
      | some v => some v
      | none => ambient.lookup k)
    ∧ (childEnv ambient (some ov) k).isSome
        = ((ov.lookup k).isSome || (ambient.lookup k).isSome)
    ∧ (∀ (argv : List String) (o : ProcOutcome),
        (runCmdEnv argv ambient (some ov) o).ambient_after = ambient
        ∧ (runCmdEnv argv ambient (some ov) o).child_env = childEnv ambient (some ov)) := by
  refine ⟨rfl, ?_, fun argv o => ⟨rfl, rfl⟩⟩
  cases h : ov.lookup k <;> simp [childEnv, h]

/-- Claim C1: the exit-code policy — 1 when a FAIL finding exists, else
1 when strict mode is on and a WARN finding exists, else 0; the run
exits 2 with no probe run when no target command is supplied (no
arguments, or only the `--` separator), and 127 with no probe run when
the target executable cannot be located. -/
theorem exit_code_policy :
    (∀ (findings : List Finding) (strict : Bool),
        exitCode findings strict =
          if 0 < failCount findings then 1
          else if strict = true ∧ 0 < warnCount findings then 1
          else 0)
    ∧ (∀ (exe_found strict : Bool) (tb : TargetBehavior),
        mainRun [] exe_found strict tb = (2, []))
    ∧ (∀ (exe_found strict : Bool) (tb : TargetBehavior),
        mainRun [sepTok] exe_found strict tb = (2, []))
    ∧ (∀ (e : String) (rest : List String) (strict : Bool) (tb : TargetBehavior),
        mainRun (sepTok :: e :: rest) false strict tb = (127, []))
    ∧ (∀ (e : String) (rest : List String) (strict : Bool) (tb : TargetBehavior),
        mainRun (sepTok :: e :: rest) true strict tb =
          (exitCode (probeFindings (e :: rest) tb) strict, probeFindings (e :: rest) tb)) := by
  refine ⟨fun findings strict => rfl, fun exe_found strict tb => rfl, ?_, ?_, ?_⟩
  · intro exe_found strict tb
    simp [mainRun, stripSep]
  · intro e rest strict tb
    simp [mainRun, stripSep]
  · intro e rest strict tb
    simp [mainRun, stripSep]

/-- Claim C5 is false as stated: on a help probe whose stdout and
stderr are both empty, the code still emits the both-channels WARN, so
that WARN is not emitted only when both channels are non-empty. -/
theorem channel_warn_counterexample :
    warnHelpBoth ∈ helpProbeFindings (runCmd demoCmd (ProcOutcome.completed 0 "" ""))
    ∧ (runCmd demoCmd (ProcOutcome.completed 0 "" "")).stdout = ""
    ∧ (runCmd demoCmd (ProcOutcome.completed 0 "" "")).stderr = "" := by
  decide

/-- Claim C5 (amended): in the help-long probe's channel check, run
whenever the probe neither timed out nor failed to start, a PASS is
emitted when non-whitespace output appears on stdout only, a WARN when
on stderr only, and the distinct both-channels WARN is emitted exactly
when neither of those cases holds — both channels non-empty after
stripping, or both empty after stripping. -/
theorem channel_rule (argv : List String) (rc : Int) (out err : String) :
    (∃ pre, helpProbeFindings (runCmd argv (ProcOutcome.completed rc out err))
        = pre ++ channelFindings (runCmd argv (ProcOutcome.completed rc out err)))
    ∧ (channelFindings (runCmd argv (ProcOutcome.completed rc out err)) = [passHelpStdout]
        ↔ (pyStrip out ≠ "" ∧ pyStrip err = ""))
    ∧ (channelFindings (runCmd argv (ProcOutcome.completed rc out err)) = [warnHelpStderr]
        ↔ (pyStrip err ≠ "" ∧ pyStrip out = ""))
    ∧ (channelFindings (runCmd argv (ProcOutcome.completed rc out err)) = [warnHelpBoth]
        ↔ ((pyStrip out ≠ "" ∧ pyStrip err ≠ "") ∨ (pyStrip out = "" ∧ pyStrip err = ""))) := by
  have ne1 : warnHelpStderr ≠ passHelpStdout := by decide
  have ne2 : warnHelpBoth ≠ passHelpStdout := by decide
  have ne3 : passHelpStdout ≠ warnHelpStderr := by decide
  have ne4 : warnHelpBoth ≠ warnHelpStderr := by decide
  have ne5 : passHelpStdout ≠ warnHelpBoth := by decide
  have ne6 : warnHelpStderr ≠ warnHelpBoth := by decide
  refine ⟨⟨(if rc != 0 then [failHelpExit rc] else [passHelpExit])
      ++ helpOutputFindings (runCmd argv (ProcOutcome.completed rc out err)), rfl⟩, ?_, ?_, ?_⟩ <;>
    cases h1 : pyTruthy (pyStrip out) <;> cases h2 : pyTruthy (pyStrip err) <;>
      simp [channelFindings, runCmd, h1, h2, ← pyTruthy_eq_false_iff, ne1, ne2, ne3, ne4,
        ne5, ne6]

/-- Claim C9 is false as stated: when the no-color-env probe times out
with an ANSI fragment in the partially captured stdout, the suite emits
the WARN finding, not the PASS finding. -/
theorem env_probe_counterexample :
    (runCmd (demoCmd ++ [helpFlagTok]) demoTimeoutTb.no_color).timed_out = true
    ∧ passNoColorClean ∉ probeFindings demoCmd demoTimeoutTb := by
  decide

/-- Claim C9 (amended): if the no-color-env probe (or the dumb-term-env
probe) fails to start, its PASS finding is emitted; if it times out, the
PASS finding is emitted exactly when no ANSI sequence occurs in the
captured partial output; and on every outcome each of these two probes
emits exactly its PASS or its ANSI WARN finding — never an
execution-failure finding. -/
theorem env_probe_rule :
    (∀ argv : List String,
        noColorFindings (runCmd argv ProcOutcome.notFound) = [passNoColorClean]
        ∧ dumbTermFindings (runCmd argv ProcOutcome.notFound) = [passDumbClean])
    ∧ (∀ (argv : List String) (so se : Option String),
        (noColorFindings (runCmd argv (ProcOutcome.timedOut so se)) = [passNoColorClean]
          ↔ (has_ansi (orEmpty so) || has_ansi (orEmpty se)) = false)
        ∧ (dumbTermFindings (runCmd argv (ProcOutcome.timedOut so se)) = [passDumbClean]
          ↔ (has_ansi (orEmpty so) || has_ansi (orEmpty se)) = false))
    ∧ (∀ (argv : List String) (o : ProcOutcome),
        (noColorFindings (runCmd argv o) = [passNoColorClean]
          ∨ noColorFindings (runCmd argv o) = [warnNoColorAnsi])
        ∧ (dumbTermFindings (runCmd argv o) = [passDumbClean]
          ∨ dumbTermFindings (runCmd argv o) = [warnDumbAnsi])) := by
  have hclean : (has_ansi "" || has_ansi notFoundMsg) = false := by decide
  have ne1 : warnNoColorAnsi ≠ passNoColorClean := by decide
  have ne2 : warnDumbAnsi ≠ passDumbClean := by decide
  refine ⟨fun argv => ?_, fun argv so se => ?_, fun argv o => ?_⟩
  · constructor <;> simp [noColorFindings, dumbTermFindings, runCmd, hclean]
  · constructor <;>
      cases h : (has_ansi (orEmpty so) || has_ansi (orEmpty se)) <;>
        simp [noColorFindings, dumbTermFindings, runCmd, h, ne1, ne2]
  · constructor <;>
      cases h : (has_ansi (runCmd argv o).stdout || has_ansi (runCmd argv o).stderr) <;>
        simp [noColorFindings, dumbTermFindings, h]

/-- Claim C10: the convention checks and the ANSI/carriage-return
checks always run on the help-long probe's retained text, whatever that
probe's outcome; when the help probe failed to start the analyzed text
is the synthetic `"\nCommand not found."`, on which all five convention
checks emit their WARN findings. -/
theorem conventions_unconditional :
    (∀ (cmd : List String) (tb : TargetBehavior), ∃ pre post,
        probeFindings cmd tb =
          pre ++ conventionFindings (helpText cmd tb) ++ ansiFindings (helpRes cmd tb) ++ post)
    ∧ (∀ (cmd : List String) (o2 o3 o4 o5 : ProcOutcome),
        helpText cmd ⟨ProcOutcome.notFound, o2, o3, o4, o5⟩ = notFoundHelpText)
    ∧ conventionFindings notFoundHelpText
        = [warnVersion, warnJson, warnPlain, warnColorCtl, warnNoInput] := by
  refine ⟨fun cmd tb => ?_, fun cmd o2 o3 o4 o5 => rfl, by decide⟩
  refine ⟨helpProbeFindings (helpRes cmd tb)
      ++ hProbeFindings (runCmd (cmd ++ [shortHFlagTok]) tb.hshort)
      ++ badProbeFindings (runCmd (cmd ++ [badFlagTok]) tb.bad),
    noColorFindings (runCmd (cmd ++ [helpFlagTok]) tb.no_color)
      ++ dumbTermFindings (runCmd (cmd ++ [helpFlagTok]) tb.dumb_term), ?_⟩
  simp [probeFindings, List.append_assoc]

/-- Claim C4: when the invalid-flag probe neither timed out nor failed
to start, the FAIL finding is emitted exactly when the observed exit
code is 0 and otherwise the PASS finding reporting the observed
non-zero code heads the probe's findings; consequently a target that
exits 0 on every probe yields the "Unknown flag returned exit code 0"
finding and overall exit code 1. -/
theorem invalid_flag_rule :
    (∀ (argv : List String) (rc : Int) (out err : String),
        (∃ tail, badProbeFindings (runCmd argv (ProcOutcome.completed rc out err))
            = (if rc = 0 then [failUnknownFlag] else [passUnknownNonZero rc]) ++ tail)
        ∧ (failUnknownFlag ∈ badProbeFindings (runCmd argv (ProcOutcome.completed rc out err))
            ↔ rc = 0))
    ∧ (∀ (e : String) (rest : List String) (strict : Bool)
        (o1 e1 o2 e2 o3 e3 o4 e4 o5 e5 : String),
        failUnknownFlag ∈ (mainRun (sepTok :: e :: rest) true strict
            ⟨ProcOutcome.completed 0 o1 e1, ProcOutcome.completed 0 o2 e2,
             ProcOutcome.completed 0 o3 e3, ProcOutcome.completed 0 o4 e4,
             ProcOutcome.completed 0 o5 e5⟩).2
        ∧ (mainRun (sepTok :: e :: rest) true strict
            ⟨ProcOutcome.completed 0 o1 e1, ProcOutcome.completed 0 o2 e2,
             ProcOutcome.completed 0 o3 e3, ProcOutcome.completed 0 o4 e4,
             ProcOutcome.completed 0 o5 e5⟩).1 = 1) := by
  have nepass : ∀ rc : Int, failUnknownFlag ≠ passUnknownNonZero rc := by
    intro rc h
    simp [failUnknownFlag, passUnknownNonZero, levelFAIL, levelPASS, Finding.mk.injEq] at h
  have ne1 : failUnknownFlag ≠ passErrStderr := by decide
  have ne2 : failUnknownFlag ≠ warnErrStderr := by decide
  have ne3 : failUnknownFlag ≠ passMentionsHelp := by decide
  have ne4 : failUnknownFlag ≠ warnMentionsHelp := by decide
  have ne5 : failUnknownFlag ≠ warnNoisy := by decide
  constructor
  · intro argv rc out err
    constructor
    · refine ⟨(if pyTruthy (pyStrip err) then [passErrStderr] else [warnErrStderr])
          ++ ((if strContains (out ++ err) kwHelp then [passMentionsHelp]
               else [warnMentionsHelp])
            ++ (if noisyMarkers.any (fun m => strContains (out ++ err) m) then [warnNoisy]
                else [])), ?_⟩
      simp [badProbeFindings, runCmd, beq_iff_eq, List.append_assoc]
    · by_cases h : rc = 0 <;>
        simp [badProbeFindings, runCmd, beq_iff_eq, h, List.mem_append, mem_ite_singleton,
          mem_ite_nil, nepass rc, ne1, ne2, ne3, ne4, ne5]
  · intro e rest strict o1 e1 o2 e2 o3 e3 o4 e4 o5 e5
    have hmem : failUnknownFlag ∈ badProbeFindings
        (runCmd ((e :: rest) ++ [badFlagTok]) (ProcOutcome.completed 0 o3 e3)) := by
      simp [badProbeFindings, runCmd]
    have hfs : failUnknownFlag ∈ probeFindings (e :: rest)
        ⟨ProcOutcome.completed 0 o1 e1, ProcOutcome.completed 0 o2 e2,
         ProcOutcome.completed 0 o3 e3, ProcOutcome.completed 0 o4 e4,
         ProcOutcome.completed 0 o5 e5⟩ := by
      unfold probeFindings
      exact List.mem_append_left _ (List.mem_append_left _ (List.mem_append_left _
        (List.mem_append_left _ (List.mem_append_right _ hmem))))
    have hpos : 0 < failCount (probeFindings (e :: rest)
        ⟨ProcOutcome.completed 0 o1 e1, ProcOutcome.completed 0 o2 e2,
         ProcOutcome.completed 0 o3 e3, ProcOutcome.completed 0 o4 e4,
         ProcOutcome.completed 0 o5 e5⟩) :=
      List.countP_pos_iff.mpr ⟨failUnknownFlag, hfs, by decide⟩
    constructor
    · simpa [mainRun, stripSep] using hfs
    · simp [mainRun, stripSep, exitCode, hpos]

/-- The boolean short-flag scanner agrees with the word-boundary
predicate. -/
theorem shortFlagMention_iff (s : String) (c : Char) :
    shortFlagMention s c = true ↔ ShortBoundary s.data c := by
  unfold shortFlagMention ShortBoundary
  rw [List.any_eq_true]
  constructor
  · rintro ⟨i, -, hm⟩
    unfold shortFlagMatchAt at hm
    rw [Bool.and_eq_true, Bool.and_eq_true, Bool.and_eq_true] at hm
    obtain ⟨⟨⟨hdash, hc⟩, hprev⟩, hnext⟩ := hm
    refine ⟨i, by simpa using hdash, by simpa using hc, ?_, ?_⟩
    · unfold prevOk at hprev
      rcases hp : s.data.get? (i - 1) with _ | p
      · rw [hp] at hprev
        simp at hprev
        exact Or.inl hprev
      · rw [hp] at hprev
        simp at hprev
        rcases hprev with h0 | hsp
        · exact Or.inl h0
        · exact Or.inr ⟨p, rfl, hsp⟩
    · unfold nextOk at hnext
      rcases hn : s.data.get? (i + 2) with _ | n
      · exact Or.inl rfl
      · rw [hn] at hnext
        simp at hnext
        exact Or.inr ⟨n, rfl, hnext⟩
  · rintro ⟨i, hdash, hc, hprev, hnext⟩
    have hilen : i < s.data.length := (List.get?_eq_some.mp hdash).1
    refine ⟨i, List.mem_range.mpr hilen, ?_⟩
    unfold shortFlagMatchAt
    rw [Bool.and_eq_true, Bool.and_eq_true, Bool.and_eq_true]
    refine ⟨⟨⟨beq_iff_eq.mpr hdash, beq_iff_eq.mpr hc⟩, ?_⟩, ?_⟩
    · unfold prevOk
      rcases hprev with h0 | ⟨p, hp, hsp⟩
      · simp [h0]
      · rw [hp]
        simp [hsp]
    · unfold nextOk
      rcases hnext with h0 | ⟨n, hn, hcase⟩
      · rw [h0]
      · rw [hn]
        rcases hcase with h | h
        · simp [h]
        · simp [h]

/-- Claim C6: the short-form flag tokens are detected exactly at word
boundaries — preceded by start-of-string or whitespace and followed by
whitespace, a comma, or end-of-string — so `-v` is reported present in
`"run -v now"` and absent in `"run -version"`. -/
theorem short_flag_boundary :
    (∀ (s : String) (c : Char), shortFlagMention s c = true ↔ ShortBoundary s.data c)
    ∧ find_flag_mentions verboseExample kwVerbose = true
    ∧ find_flag_mentions versionExample kwVerbose = false :=
  ⟨shortFlagMention_iff, by decide, by decide⟩

end CliAudit
